import Mathlib

/-!
Verification of the DPU network operator's reconcile controller
(`controllers/config_controller.go`), shallowly embedded in Lean 4.

External collaborators (Kubernetes API calls, the manifest renderer, the
kubeconfig decoder, the syncer construction) are modelled as explicit
oracle inputs carried in environment structures; cluster-held
MachineConfigPool / MachineConfig objects are modelled as a name-indexed
store so that the convergence phase's read/write sequence can be traced.
-/

namespace DpuOperator

/-- Errors returned by Go functions: either an error coming back from a
Kubernetes API call (which carries whether `errors.IsNotFound` holds for
it), or an error built with `fmt.Errorf`.  Messages follow the source but
drop the single-quote characters around object names. -/
inductive GoError where
  | apiError (notFound : Bool) (msg : String)
  | errorf (msg : String)
deriving DecidableEq, Repr

/-- Models `errors.IsNotFound` from `k8s.io/apimachinery`. -/
def GoError.isNotFound : GoError → Bool
  | .apiError nf _ => nf
  | .errorf _ => false

instance {ε α : Type} [DecidableEq ε] [DecidableEq α] : DecidableEq (Except ε α) :=
  fun a b =>
    match a, b with
    | .error e, .error f =>
      if h : e = f then isTrue (by rw [h]) else isFalse (fun hh => by cases hh; exact h rfl)
    | .ok x, .ok y =>
      if h : x = y then isTrue (by rw [h]) else isFalse (fun hh => by cases hh; exact h rfl)
    | .error _, .ok _ => isFalse (fun hh => by cases hh)
    | .ok _, .error _ => isFalse (fun hh => by cases hh)

/-- Outcome of running a Go function that may also panic at runtime
(nil-pointer dereference, write to a nil map). -/
inductive Outcome (α : Type) where
  | ok (a : α)
  | err (e : GoError)
  | goPanic (msg : String)
deriving DecidableEq, Repr

/-- Models `metav1.LabelSelectorRequirement`. -/
structure LabelSelectorRequirement where
  key : String
  operator : String
  values : List String
deriving DecidableEq, Repr

/-- Models `metav1.LabelSelector` (match labels as an association list). -/
structure LabelSelector where
  matchLabels : List (String × String)
  matchExpressions : List LabelSelectorRequirement
deriving DecidableEq, Repr

/-- Decoded JSON value, the target of `json.Unmarshal` into a Go
`interface` value.  Arrays and objects are encoded with cons cells
(`arrCons`/`arrNil`, `objCons`/`objNil`) so that equality is derivable;
object fields are understood to be in a canonical order, so that Lean
equality of two decoded values models `reflect.DeepEqual` of the decoded
Go trees. -/
inductive JsonVal where
  | null
  | bool (b : Bool)
  | num (n : Int)
  | str (s : String)
  | arrNil
  | arrCons (head : JsonVal) (tail : JsonVal)
  | objNil
  | objCons (key : String) (value : JsonVal) (rest : JsonVal)
deriving DecidableEq, Repr

/-- Models `net.JoinHostPort`: an address containing a colon is assumed to be an
IPv6 literal and gets bracketed. -/
def joinHostPort (host port : String) : String :=
  if host.data.contains ':' then "[" ++ host ++ "]:" ++ port
  else host ++ ":" ++ port

/-- Models `strings.Join` from the Go standard library. -/
def goStringsJoin (elems : List String) (sep : String) : String :=
  match elems with
  | [] => ""
  | e :: rest => rest.foldl (fun acc x => acc ++ sep ++ x) e

/-- Models `dbList` from the controller: render every master IP as an
`ssl:`-tagged host/port endpoint and join the results with commas. -/
def dbList (masterIPs : List String) (port : String) : String :=
  goStringsJoin (masterIPs.map (fun ip => "ssl:" ++ joinHostPort ip port)) ","

/-- Models `DpuClusterConfigSpec` (the `dpuv1alpha1` API type is not part of the
controller source; its fields are the ones the controller reads).
`nodeSelectorString` models the serialized form `Spec.NodeSelector.String()`
used by validation; the serializer itself is external library code, so the
serialized form is carried alongside the structured selector. -/
structure DpuClusterConfigSpec where
  poolName : String
  nodeSelector : Option LabelSelector
  nodeSelectorString : String
  kubeConfigFile : String
deriving DecidableEq, Repr

/-- A `DpuClusterConfig` custom resource as the controller sees it. -/
structure DpuClusterConfig where
  spec : DpuClusterConfigSpec
deriving DecidableEq, Repr

/-- Models `mcfgv1.MachineConfigPoolSpec` restricted to the fields the controller
reads and writes. -/
structure MachineConfigPoolSpec where
  machineConfigSelector : Option LabelSelector
  nodeSelector : Option LabelSelector
deriving DecidableEq, Repr

/-- Models `mcfgv1.MachineConfigPool`. -/
structure MachineConfigPool where
  name : String
  spec : MachineConfigPoolSpec
deriving DecidableEq, Repr

/-- Models `mcfgv1.MachineConfig` restricted to the fields the controller touches:
the object name, the resource version, and the raw ignition payload
(`Spec.Config.Raw`). -/
structure MachineConfig where
  name : String
  resourceVersion : String
  configRaw : String
deriving DecidableEq, Repr

/-- The cluster-held MachineConfigPool / MachineConfig objects, indexed by
name.  Gets, creates and updates in the convergence phase are modelled
against this store (a create or update always succeeds; a get of an absent
name is the NotFound case). -/
structure Cluster where
  mcp : String → Option MachineConfigPool
  mc : String → Option MachineConfig

/-- Store a MachineConfigPool under its name (used for both Create and
Update, which coincide on a name-indexed store). -/
def Cluster.putMcp (c : Cluster) (p : MachineConfigPool) : Cluster :=
  { c with mcp := fun n => if n = p.name then some p else c.mcp n }

/-- Store a MachineConfig under its name. -/
def Cluster.putMc (c : Cluster) (m : MachineConfig) : Cluster :=
  { c with mc := fun n => if n = m.name then some m else c.mc n }

/-- API operations issued by `syncMachineConfigObjs`, in order. -/
inductive McOp where
  | getMcp (name : String)
  | createMcp (p : MachineConfigPool)
  | updateMcp (p : MachineConfigPool)
  | getMc (name : String)
  | createMc (m : MachineConfig)
  | updateMc (m : MachineConfig)
deriving DecidableEq, Repr

/-- Whether an operation writes to the cluster. -/
def McOp.isWrite : McOp → Bool
  | .getMcp _ => false
  | .getMc _ => false
  | .createMcp _ => true
  | .updateMcp _ => true
  | .createMc _ => true
  | .updateMc _ => true

/-- Result of one run of `syncMachineConfigObjs`: the cluster afterwards,
the API operations issued in order, and the returned error. -/
structure McResult where
  cluster : Cluster
  ops : List McOp
  res : Except GoError Unit

/-- The machine-config selector built by
`metav1.ParseToLabelSelector("machineconfiguration.openshift.io/role in (worker,dpu-worker)")`;
the parse of this fixed string always succeeds and yields one
`In` requirement. -/
def dpuMcSelector : LabelSelector :=
  ⟨[], [⟨"machineconfiguration.openshift.io/role", "In", ["worker", "dpu-worker"]⟩]⟩

/-- The generated MachineConfig name `"00-" + poolName + "-" + "bluefield-switchdev"`. -/
def mcName (poolName : String) : String :=
  "00-" ++ poolName ++ "-" ++ "bluefield-switchdev"

/-- Models `syncMachineConfigObjs`.  `renderedRaw` is the ignition payload produced
by `mcrender.GenerateMachineConfig` (an external renderer, deterministic in
the fixed template and data, so modelled as an input); `unmarshal` models
`json.Unmarshal` of a raw payload into a decoded tree, and equality of its
results models `reflect.DeepEqual` of the decoded trees. -/
def syncMachineConfigObjs (cs : DpuClusterConfigSpec) (renderedRaw : String)
    (unmarshal : String → JsonVal) (c : Cluster) : McResult :=
  let desired : MachineConfigPoolSpec := ⟨some dpuMcSelector, cs.nodeSelector⟩
  if cs.poolName = "master" ∨ cs.poolName = "worker" then
    ⟨c, [], .error (.errorf (cs.poolName ++ " pools is not allowed"))⟩
  else
    let step1 : Cluster × List McOp :=
      match c.mcp cs.poolName with
      | none =>
        let p : MachineConfigPool := ⟨cs.poolName, desired⟩
        (c.putMcp p, [.getMcp cs.poolName, .createMcp p])
      | some found =>
        if found.spec.machineConfigSelector = some dpuMcSelector
            ∧ found.spec.nodeSelector = cs.nodeSelector then
          (c, [.getMcp cs.poolName])
        else
          let upd : MachineConfigPool := { found with spec := desired }
          (c.putMcp upd, [.getMcp cs.poolName, .updateMcp upd])
    let nm := mcName cs.poolName
    match step1.1.mc nm with
    | none =>
      let m : MachineConfig := ⟨nm, "", renderedRaw⟩
      ⟨step1.1.putMc m, step1.2 ++ [.getMc nm, .createMc m], .ok ()⟩
    | some foundMc =>
      if unmarshal foundMc.configRaw = unmarshal renderedRaw then
        ⟨step1.1, step1.2 ++ [.getMc nm], .ok ()⟩
      else
        let m : MachineConfig := ⟨nm, foundMc.resourceVersion, renderedRaw⟩
        ⟨step1.1.putMc m, step1.2 ++ [.getMc nm, .updateMc m], .ok ()⟩

/-- Models `appsv1.DaemonSetStatus` restricted to the two counters the readiness
check reads. -/
structure DaemonSetStatus where
  desiredNumberScheduled : Int
  numberReady : Int
deriving DecidableEq, Repr

/-- Models `checkDeamonSetState` (sic): fetch the `ovnkube-node` DaemonSet (the
get's result is the oracle input) and require the desired-scheduled count
to equal the ready count.  The source message quotes the DaemonSet name;
the quote characters are dropped here. -/
def checkDeamonSetState (dsGet : Except GoError DaemonSetStatus) : Except GoError Unit :=
  match dsGet with
  | .error e => .error e
  | .ok ds =>
    if ds.desiredNumberScheduled ≠ ds.numberReady then
      .error (.errorf "DaemonSet ovnkube-node is rolling out")
    else
      .ok ()

/-- Reconciler state: the single in-memory syncer-task handle
(`r.syncer`), modelled as an optional handle id. -/
structure RState where
  syncer : Option Nat
deriving DecidableEq, Repr

/-- A Kubernetes Secret restricted to its string data map. -/
structure Secret where
  data : List (String × String)
deriving DecidableEq, Repr

/-- Association-list lookup (a Go map read). -/
def lookupData (d : List (String × String)) (k : String) : Option String :=
  (d.find? (fun kv => kv.1 == k)).map (fun kv => kv.2)

/-- Oracle inputs for `startTenantSyncerIfNeeded`: the result of reading
the kubeconfig secret, of `clientcmd.RESTConfigFromKubeConfig`, and of
`syncer.New` (a fresh handle id on success). -/
structure SyncerEnv where
  secretGet : Except GoError Secret
  restConfig : Except GoError Unit
  syncerNew : Except GoError Nat

/-- Externally visible actions of `startTenantSyncerIfNeeded`, in order. -/
inductive SyncerAction where
  | readSecret (name : String)
  | builtRestConfig
  | constructed (h : Nat)
  | launched (h : Nat)
deriving DecidableEq, Repr

/-- Result of `startTenantSyncerIfNeeded`. -/
structure SyncerResult where
  state : RState
  actions : List SyncerAction
  res : Except GoError Unit
deriving DecidableEq, Repr

/-- Models `startTenantSyncerIfNeeded`: a no-op when a syncer handle is already
held; otherwise read the kubeconfig secret named by the spec, require its
`config` key, decode it, construct the syncer (assigning the handle) and
launch it asynchronously.  The source message about the missing key quotes
the key name; the quote characters are dropped here. -/
def startTenantSyncerIfNeeded (env : SyncerEnv) (cfg : DpuClusterConfig) (st : RState) :
    SyncerResult :=
  match st.syncer with
  | some _ => ⟨st, [], .ok ()⟩
  | none =>
    match env.secretGet with
    | .error e => ⟨st, [.readSecret cfg.spec.kubeConfigFile], .error e⟩
    | .ok s =>
      match lookupData s.data "config" with
      | none =>
        ⟨st, [.readSecret cfg.spec.kubeConfigFile],
          .error (.errorf ("key config cannot be found in secret " ++ cfg.spec.kubeConfigFile))⟩
      | some _ =>
        match env.restConfig with
        | .error e => ⟨st, [.readSecret cfg.spec.kubeConfigFile], .error e⟩
        | .ok _ =>
          match env.syncerNew with
          | .error e =>
            ⟨⟨none⟩, [.readSecret cfg.spec.kubeConfigFile, .builtRestConfig], .error e⟩
          | .ok h =>
            ⟨⟨some h⟩,
              [.readSecret cfg.spec.kubeConfigFile, .builtRestConfig, .constructed h, .launched h],
              .ok ()⟩

/-- Oracle inputs for `isTenantObjsSynced`: results of the three gets
(the `ovnca` ConfigMap, the `ovnkube-config` ConfigMap, the `ovncert`
Secret); `none` means the get succeeded. -/
structure TenantObjsEnv where
  cmCaGet : Option GoError
  cmOvnkubeConfigGet : Option GoError
  secretCertGet : Option GoError

/-- Models `isTenantObjsSynced`: the three mirrored objects must all be present. -/
def isTenantObjsSynced (env : TenantObjsEnv) : Except GoError Unit :=
  match env.cmCaGet with
  | some e => .error e
  | none =>
    match env.cmOvnkubeConfigGet with
    | some e => .error e
    | none =>
      match env.secretCertGet with
      | some e => .error e
      | none => .ok ()

/-- A tenant-cluster pod as read by the controller: only `Status.PodIP`. -/
structure PodStatus where
  podIP : String
deriving DecidableEq, Repr

/-- Oracle inputs for `getTenantClusterMasterIPs`: the result of building
the tenant-cluster client and of listing the `ovnkube-master` pods. -/
structure TenantListEnv where
  newClient : Option GoError
  podList : Except GoError (List PodStatus)

/-- Models `getTenantClusterMasterIPs`: list the tenant `ovnkube-master` pods and
collect their pod IPs; any failure propagates. -/
def getTenantClusterMasterIPs (env : TenantListEnv) : Except GoError (List String) :=
  match env.newClient with
  | some e => .error e
  | none =>
    match env.podList with
    | .error e => .error e
    | .ok pods => .ok (pods.map (fun p => p.podIP))

/-- A rendered manifest object as the daemonset sync sees it: its kind,
its name, and (for the DaemonSet kind) the pod template's node selector,
where `none` models a nil Go map. -/
structure RenderedObj where
  kind : String
  name : String
  nodeSelector : Option (List (String × String))
deriving DecidableEq, Repr

/-- Insert a key/value pair into an association list, replacing an
existing binding of the key (a Go map assignment). -/
def mapInsert (m : List (String × String)) (k v : String) : List (String × String) :=
  if (m.find? (fun kv => kv.1 == k)).isSome then
    m.map (fun kv => if kv.1 == k then (k, v) else kv)
  else
    m ++ [(k, v)]

/-- The node-selector merge loop
`for k, v := range mcp.Spec.NodeSelector.MatchLabels { ds...NodeSelector[k] = v }`.
Reading `MatchLabels` through a nil `NodeSelector` pointer panics; writing
the first pair into a nil DaemonSet node-selector map panics. -/
def mergeNodeSelector (sel : Option LabelSelector) (ds : Option (List (String × String))) :
    Outcome (Option (List (String × String))) :=
  match sel with
  | none => .goPanic "invalid memory address or nil pointer dereference"
  | some s =>
    match s.matchLabels, ds with
    | [], d => .ok d
    | _ :: _, none => .goPanic "assignment to entry in nil map"
    | ls, some d => .ok (some (ls.foldl (fun acc kv => mapInsert acc kv.1 kv.2) d))

/-- Oracle inputs for `syncOvnkubeDaemonSet`: the MachineConfigPool get,
the tenant-cluster pod listing, the `OVNKUBE_IMAGE` environment variable
(empty when unset), the local image lookup, the manifest render, and the
per-object results of `SetControllerReference` and `apply.ApplyObject`. -/
structure DsEnv where
  mcpGet : Except GoError MachineConfigPool
  tenant : TenantListEnv
  envImage : String
  localImage : Except GoError String
  renderObjs : Except GoError (List RenderedObj)
  setRefErr : String → Option GoError
  applyErr : String → Option GoError

/-- The zero-valued `mcfgv1.MachineConfigPool` left behind when the get
fails with a non-NotFound error (both selector pointers nil). -/
def zeroPool : MachineConfigPool := ⟨"", ⟨none, none⟩⟩

/-- Per-object processing loop of `syncOvnkubeDaemonSet`: for DaemonSet
kinds merge the pool's match labels into the pod node selector, set the
owner reference, and apply; first failure aborts. -/
def syncDsObjs (env : DsEnv) (mcp : MachineConfigPool) : List RenderedObj → Outcome Unit
  | [] => .ok ()
  | obj :: rest =>
    let step : Outcome RenderedObj :=
      if obj.kind = "DaemonSet" then
        match mergeNodeSelector mcp.spec.nodeSelector obj.nodeSelector with
        | .goPanic m => .goPanic m
        | .err e => .err e
        | .ok ns =>
          match env.setRefErr obj.name with
          | some e => .err e
          | none => .ok { obj with nodeSelector := ns }
      else
        match env.setRefErr obj.name with
        | some e => .err e
        | none => .ok obj
    match step with
    | .goPanic m => .goPanic m
    | .err e => .err e
    | .ok o =>
      match env.applyErr o.name with
      | some _ => .err (.errorf ("failed to apply object " ++ o.name))
      | none => syncDsObjs env mcp rest

/-- Models `syncOvnkubeDaemonSet`.  Faithful to the source: a NotFound pool get
is an error, any other pool-get error is silently swallowed (leaving the
zero-valued pool); a failure to list the tenant master IPs is logged and
the function returns nil, skipping the rest of the phase. -/
def syncOvnkubeDaemonSet (env : DsEnv) (cfg : DpuClusterConfig) : Outcome Unit :=
  let mcpStep : Except GoError MachineConfigPool :=
    match env.mcpGet with
    | .error e =>
      if e.isNotFound then
        .error (.errorf ("MachineConfigPool " ++ cfg.spec.poolName ++ " not found"))
      else
        .ok zeroPool
    | .ok p => .ok p
  match mcpStep with
  | .error e => .err e
  | .ok mcp =>
    match getTenantClusterMasterIPs env.tenant with
    | .error _ => .ok ()
    | .ok _ =>
      let imageStep : Except GoError String :=
        if env.envImage ≠ "" then .ok env.envImage
        else env.localImage
      match imageStep with
      | .error e => .err e
      | .ok _ =>
        match env.renderObjs with
        | .error e => .err e
        | .ok objs => syncDsObjs env mcp objs

/-- Models `validateTenantKubeConfig`. -/
def validateTenantKubeConfig (cs : DpuClusterConfigSpec) : Except GoError Unit :=
  if cs.kubeConfigFile = "" then
    .error (.errorf "No Kubeconfig provided for Tenant cluster")
  else
    .ok ()

/-- Models `validateDPUHostBootstrap`. -/
def validateDPUHostBootstrap (cs : DpuClusterConfigSpec) : Except GoError Unit :=
  if cs.poolName = "" then
    .error (.errorf "PoolName not provided")
  else if cs.nodeSelectorString = "" then
    .error (.errorf "Missing node selector")
  else
    .ok ()

/-- The five phase functions invoked by `ReconcileDpuClusterConfig`, in
source order.  `ensureMcpReady` wraps `syncMachineConfigObjs`,
`ensureTenantObjsSynced` wraps `startTenantSyncerIfNeeded` and
`isTenantObjsSynced`, `ensureDeamonSetRunning` wraps
`syncOvnkubeDaemonSet` and `checkDeamonSetState`. -/
inductive Phase where
  | validateDPUHostBootstrap
  | ensureMcpReady
  | validateTenantKubeConfig
  | ensureTenantObjsSynced
  | ensureDeamonSetRunning
deriving DecidableEq, Repr

/-- All oracle inputs of one reconcile pass. -/
structure Env where
  cluster : Cluster
  renderedMcRaw : String
  unmarshal : String → JsonVal
  syncerEnv : SyncerEnv
  tenantObjs : TenantObjsEnv
  dsEnv : DsEnv
  dsGet : Except GoError DaemonSetStatus

/-- Result of `ReconcileDpuClusterConfig`: the reconciler state
afterwards, the phase functions that were invoked (in order), and the
outcome.  The deferred status flush is not modelled (no claim concerns
the condition set). -/
structure RecOutcome where
  state : RState
  phases : List Phase
  out : Outcome Unit
deriving DecidableEq, Repr

/-- Models `ReconcileDpuClusterConfig`: the phase sequence in source order,
short-circuiting at the first failure. -/
def ReconcileDpuClusterConfig (cfg : DpuClusterConfig) (env : Env) (st : RState) : RecOutcome :=
  match validateDPUHostBootstrap cfg.spec with
  | .error e => ⟨st, [.validateDPUHostBootstrap], .err e⟩
  | .ok _ =>
    match (syncMachineConfigObjs cfg.spec env.renderedMcRaw env.unmarshal env.cluster).res with
    | .error e => ⟨st, [.validateDPUHostBootstrap, .ensureMcpReady], .err e⟩
    | .ok _ =>
      match validateTenantKubeConfig cfg.spec with
      | .error e =>
        ⟨st, [.validateDPUHostBootstrap, .ensureMcpReady, .validateTenantKubeConfig], .err e⟩
      | .ok _ =>
        let sr := startTenantSyncerIfNeeded env.syncerEnv cfg st
        match sr.res with
        | .error e =>
          ⟨sr.state,
            [.validateDPUHostBootstrap, .ensureMcpReady, .validateTenantKubeConfig,
              .ensureTenantObjsSynced], .err e⟩
        | .ok _ =>
          match isTenantObjsSynced env.tenantObjs with
          | .error e =>
            ⟨sr.state,
              [.validateDPUHostBootstrap, .ensureMcpReady, .validateTenantKubeConfig,
                .ensureTenantObjsSynced], .err e⟩
          | .ok _ =>
            match syncOvnkubeDaemonSet env.dsEnv cfg with
            | .goPanic m =>
              ⟨sr.state,
                [.validateDPUHostBootstrap, .ensureMcpReady, .validateTenantKubeConfig,
                  .ensureTenantObjsSynced, .ensureDeamonSetRunning], .goPanic m⟩
            | .err e =>
              ⟨sr.state,
                [.validateDPUHostBootstrap, .ensureMcpReady, .validateTenantKubeConfig,
                  .ensureTenantObjsSynced, .ensureDeamonSetRunning], .err e⟩
            | .ok _ =>
              match checkDeamonSetState env.dsGet with
              | .error e =>
                ⟨sr.state,
                  [.validateDPUHostBootstrap, .ensureMcpReady, .validateTenantKubeConfig,
                    .ensureTenantObjsSynced, .ensureDeamonSetRunning], .err e⟩
              | .ok _ =>
                ⟨sr.state,
                  [.validateDPUHostBootstrap, .ensureMcpReady, .validateTenantKubeConfig,
                    .ensureTenantObjsSynced, .ensureDeamonSetRunning], .ok ()⟩

/-- Top-level actions of `Reconcile` outside the phase sequence. -/
inductive TopAction where
  | stoppedSyncer (h : Nat)
deriving DecidableEq, Repr

/-- Result of `Reconcile`. -/
structure TopOutcome where
  state : RState
  actions : List TopAction
  phases : List Phase
  out : Outcome Unit
deriving DecidableEq, Repr

/-- Models `Reconcile`: list the DpuClusterConfig objects of the namespace
(`listRes` is the oracle result of `r.List`).  Faithful to the source: in
the more-than-one branch the function logs an error but returns the `err`
variable, which is necessarily nil there because the List call succeeded. -/
def Reconcile (listRes : Except GoError (List DpuClusterConfig)) (env : Env) (st : RState) :
    TopOutcome :=
  match listRes with
  | .error e => ⟨st, [], [], .err e⟩
  | .ok items =>
    if 1 < items.length then
      ⟨st, [], [], .ok ()⟩
    else
      match items with
      | [cfg] =>
        let r := ReconcileDpuClusterConfig cfg env st
        ⟨r.state, [], r.phases, r.out⟩
      | _ =>
        match st.syncer with
        | some h => ⟨⟨none⟩, [.stoppedSyncer h], [], .ok ()⟩
        | none => ⟨st, [], [], .ok ()⟩

/-! ## Helper lemmas and reference definitions -/

/-- Comma-separated tail of a joined list. -/
def dbTail : List String → String
  | [] => ""
  | x :: xs => "," ++ x ++ dbTail xs

theorem foldl_comma_append (l : List String) (acc : String) :
    l.foldl (fun a x => a ++ "," ++ x) acc = acc ++ dbTail l := by
  induction l generalizing acc with
  | nil => simp [dbTail]
  | cons x xs ih =>
    rw [List.foldl_cons, ih]
    simp [dbTail, String.append_assoc]

/-- Reference rendering of the endpoint list, written by plain recursion
over the address list as the spec describes it. -/
def dbListRef : List String → String → String
  | [], _ => ""
  | [ip], port => "ssl:" ++ joinHostPort ip port
  | ip :: rest, port => ("ssl:" ++ joinHostPort ip port) ++ "," ++ dbListRef rest port

theorem dbListRef_cons (rest : List String) (ip port : String) :
    dbListRef (ip :: rest) port
      = ("ssl:" ++ joinHostPort ip port)
        ++ dbTail (rest.map (fun x => "ssl:" ++ joinHostPort x port)) := by
  induction rest generalizing ip with
  | nil => simp [dbListRef, dbTail]
  | cons y ys ih => simp [dbListRef, dbTail, ih, String.append_assoc]

/-! ## Concrete fixtures for witnesses and counterexamples -/

/-- A non-trivial node selector. -/
def selX : LabelSelector := ⟨[("network.operator.openshift.io/dpu", "")], []⟩

/-- A cluster holding no MachineConfigPool and no MachineConfig. -/
def emptyCluster : Cluster := ⟨fun _ => none, fun _ => none⟩

/-- Syncer oracle where every external call succeeds. -/
def benignSyncerEnv : SyncerEnv := ⟨.ok ⟨[("config", "kubeconfig-bytes")]⟩, .ok (), .ok 1⟩

/-- Tenant-object oracle where the three mirrored objects are present. -/
def benignTenantObjs : TenantObjsEnv := ⟨none, none, none⟩

/-- Tenant listing oracle returning two master pods. -/
def benignTenant : TenantListEnv := ⟨none, .ok [⟨"10.0.0.1"⟩, ⟨"10.0.0.2"⟩]⟩

/-- Daemonset-sync oracle where every external call succeeds. -/
def benignDsEnv : DsEnv :=
  ⟨.ok ⟨"dpu", ⟨some dpuMcSelector, some selX⟩⟩, benignTenant, "registry.example/ovnkube:a",
    .ok "registry.example/ovnkube:b", .ok [⟨"DaemonSet", "ovnkube-node", some []⟩],
    fun _ => none, fun _ => none⟩

/-- A full benign pass environment. -/
def env0 : Env :=
  ⟨emptyCluster, "rendered-ign", fun _ => .null, benignSyncerEnv, benignTenantObjs,
    benignDsEnv, .ok ⟨3, 3⟩⟩

/-- A well-formed configuration object. -/
def cfg0 : DpuClusterConfig :=
  ⟨⟨"dpu", some selX, "network.operator.openshift.io/dpu=", "tenant-kubeconfig"⟩⟩

/-- A second well-formed configuration object in the same namespace. -/
def cfg1 : DpuClusterConfig :=
  ⟨⟨"dpu-two", some selX, "network.operator.openshift.io/dpu=", "tenant-kubeconfig"⟩⟩

/-! ## Claim theorems -/

/-- C9: for every list of master IP addresses and every port string,
`dbList` returns the comma-joined list of the addresses in order, each
rendered as `ssl:` followed by the host-port join of the address and the
port; for `10.0.0.1` and `10.0.0.2` with port `9641` it returns
`ssl:10.0.0.1:9641,ssl:10.0.0.2:9641`, and for the empty list the empty
string. -/
theorem dbList_renders_ssl_endpoints :
    (∀ masterIPs port, dbList masterIPs port = dbListRef masterIPs port)
    ∧ dbList ["10.0.0.1", "10.0.0.2"] "9641" = "ssl:10.0.0.1:9641,ssl:10.0.0.2:9641"
    ∧ (∀ port, dbList [] port = "") := by
  refine ⟨fun masterIPs port => ?_, by decide, fun port => rfl⟩
  cases masterIPs with
  | nil => rfl
  | cons ip rest =>
    simp [dbList, goStringsJoin, List.map, foldl_comma_append, dbListRef_cons]

/-- C8: for every fetched daemon-workload object, the readiness check
succeeds iff its desired-scheduled count equals its ready count; on a
difference it returns the rolling-out error. -/
theorem checkDeamonSetState_ready_iff (g : Except GoError DaemonSetStatus)
    (ds : DaemonSetStatus) (hg : g = .ok ds) :
    (checkDeamonSetState g = .ok () ↔ ds.desiredNumberScheduled = ds.numberReady)
    ∧ (ds.desiredNumberScheduled ≠ ds.numberReady →
        checkDeamonSetState g = .error (.errorf "DaemonSet ovnkube-node is rolling out")) := by
  subst hg
  refine ⟨⟨fun h => ?_, fun h => ?_⟩, fun h => ?_⟩
  · by_contra hne
    simp [checkDeamonSetState, hne] at h
  · simp [checkDeamonSetState, h]
  · simp [checkDeamonSetState, h]

/-- Witness for C8: desired=3, ready=2 yields the rolling-out error;
desired=3, ready=3 yields success. -/
theorem checkDeamonSetState_ready_iff_witness :
    checkDeamonSetState (.ok ⟨3, 2⟩) = .error (.errorf "DaemonSet ovnkube-node is rolling out")
    ∧ checkDeamonSetState (.ok ⟨3, 3⟩) = .ok () :=
  ⟨(checkDeamonSetState_ready_iff (.ok ⟨3, 2⟩) ⟨3, 2⟩ rfl).2 (by decide),
   (checkDeamonSetState_ready_iff (.ok ⟨3, 3⟩) ⟨3, 3⟩ rfl).1.mpr rfl⟩

/-- C1 (code-bug evidence): with more than one DpuClusterConfig in the
namespace and a successful List call, `Reconcile` selects no object and
runs none of the phases, but — contrary to the claim — returns no error:
the source returns the `err` variable of the List call, which is nil
there. -/
theorem Reconcile_multiple_configs_returns_no_error (env : Env) (st : RState)
    (items : List DpuClusterConfig) (h : 1 < items.length) :
    Reconcile (.ok items) env st = ⟨st, [], [], .ok ()⟩ := by
  simp [Reconcile, h]

/-- Witness for C1 with two concrete configuration objects. -/
theorem Reconcile_multiple_configs_returns_no_error_witness :
    Reconcile (.ok [cfg0, cfg1]) env0 ⟨some 7⟩ = ⟨⟨some 7⟩, [], [], .ok ()⟩ :=
  Reconcile_multiple_configs_returns_no_error env0 ⟨some 7⟩ [cfg0, cfg1] (by decide)

/-- C4: with zero configuration objects found, `Reconcile` stops a held
syncer task, clears the handle and returns success; with no held handle it
just returns success. -/
theorem Reconcile_zero_configs_stops_syncer (env : Env) (st : RState) :
    (∀ h, st.syncer = some h →
      Reconcile (.ok []) env st = ⟨⟨none⟩, [.stoppedSyncer h], [], .ok ()⟩)
    ∧ (st.syncer = none → Reconcile (.ok []) env st = ⟨st, [], [], .ok ()⟩) := by
  constructor
  · intro h hs
    simp [Reconcile, hs]
  · intro hs
    simp [Reconcile, hs]

/-- Witness for C4: a held handle 5 is stopped and cleared; a nil handle
passes through. -/
theorem Reconcile_zero_configs_stops_syncer_witness :
    Reconcile (.ok []) env0 ⟨some 5⟩ = ⟨⟨none⟩, [.stoppedSyncer 5], [], .ok ()⟩
    ∧ Reconcile (.ok []) env0 ⟨none⟩ = ⟨⟨none⟩, [], [], .ok ()⟩ :=
  ⟨(Reconcile_zero_configs_stops_syncer env0 ⟨some 5⟩).1 5 rfl,
   (Reconcile_zero_configs_stops_syncer env0 ⟨none⟩).2 rfl⟩

/-- Tenant listing oracle whose pod listing fails. -/
def failListTenant : TenantListEnv := ⟨none, .error (.apiError false "connection refused")⟩

/-- Daemonset-sync oracle identical to the benign one except that the
tenant pod listing fails. -/
def dsEnvFailIPs : DsEnv := { benignDsEnv with tenant := failListTenant }

/-- Daemonset-sync oracle where additionally every apply would fail,
showing the remainder of the phase is skipped rather than attempted. -/
def dsEnvFailIPsApply : DsEnv :=
  { dsEnvFailIPs with applyErr := fun _ => some (.errorf "apply refused") }

/-- C3 (code-bug evidence): when listing the remote cluster's pods fails,
`getTenantClusterMasterIPs` returns the error, but `syncOvnkubeDaemonSet`
— contrary to the claim — returns success, skipping the rest of the phase
(even an apply that would fail is never attempted). -/
theorem syncOvnkubeDaemonSet_ip_list_error_returns_ok :
    getTenantClusterMasterIPs failListTenant = .error (.apiError false "connection refused")
    ∧ syncOvnkubeDaemonSet dsEnvFailIPs cfg0 = .ok ()
    ∧ syncOvnkubeDaemonSet dsEnvFailIPsApply cfg0 = .ok () :=
  ⟨rfl, rfl, rfl⟩

/-- A configuration object with a valid pool name and node selector but no
tenant kubeconfig reference. -/
def cfgNoKubeconfig : DpuClusterConfig :=
  ⟨⟨"dpu", some selX, "network.operator.openshift.io/dpu=", ""⟩⟩

/-- C5 counterexample: with an unset kubeconfig reference and otherwise
valid fields, the pass does fail on the kubeconfig check, but node-pool
convergence (`ensureMcpReady`) has already run before that check —
refuting that all three Validate checks happen before the Node-Pool Ready
phase. -/
theorem kubeconfig_check_runs_after_mcp_convergence :
    (ReconcileDpuClusterConfig cfgNoKubeconfig env0 ⟨none⟩).phases
      = [.validateDPUHostBootstrap, .ensureMcpReady, .validateTenantKubeConfig]
    ∧ (ReconcileDpuClusterConfig cfgNoKubeconfig env0 ⟨none⟩).out
      = .err (.errorf "No Kubeconfig provided for Tenant cluster") :=
  ⟨rfl, rfl⟩

/-- C5 (amended): the pool-name and node-selector checks each fail the
pass before node-pool convergence runs; the kubeconfig check is performed
after node-pool convergence but still fails the pass before the
remote-sync phase starts (the syncer state is untouched). -/
theorem validation_check_ordering (cfg : DpuClusterConfig) (env : Env) (st : RState) :
    (cfg.spec.poolName = "" →
      ReconcileDpuClusterConfig cfg env st
        = ⟨st, [.validateDPUHostBootstrap], .err (.errorf "PoolName not provided")⟩)
    ∧ (cfg.spec.poolName ≠ "" → cfg.spec.nodeSelectorString = "" →
      ReconcileDpuClusterConfig cfg env st
        = ⟨st, [.validateDPUHostBootstrap], .err (.errorf "Missing node selector")⟩)
    ∧ (validateDPUHostBootstrap cfg.spec = .ok () →
      (syncMachineConfigObjs cfg.spec env.renderedMcRaw env.unmarshal env.cluster).res = .ok () →
      cfg.spec.kubeConfigFile = "" →
      ReconcileDpuClusterConfig cfg env st
        = ⟨st, [.validateDPUHostBootstrap, .ensureMcpReady, .validateTenantKubeConfig],
            .err (.errorf "No Kubeconfig provided for Tenant cluster")⟩) := by
  refine ⟨fun h1 => ?_, fun h1 h2 => ?_, fun hv hm hk => ?_⟩
  · simp [ReconcileDpuClusterConfig, validateDPUHostBootstrap, h1]
  · simp [ReconcileDpuClusterConfig, validateDPUHostBootstrap, h1, h2]
  · simp [ReconcileDpuClusterConfig, hv, hm, validateTenantKubeConfig, hk]

/-- Witness for C5 (amended), at a configuration whose only defect is the
empty kubeconfig reference. -/
theorem validation_check_ordering_witness :
    ReconcileDpuClusterConfig cfgNoKubeconfig env0 ⟨none⟩
      = ⟨⟨none⟩, [.validateDPUHostBootstrap, .ensureMcpReady, .validateTenantKubeConfig],
          .err (.errorf "No Kubeconfig provided for Tenant cluster")⟩ :=
  (validation_check_ordering cfgNoKubeconfig env0 ⟨none⟩).2.2 rfl rfl rfl

/-- C6: a reserved pool name makes node-pool convergence fail with the
pools-not-allowed error before issuing any API read or write, leaving the
cluster untouched. -/
theorem reserved_pool_name_rejected_before_api (cs : DpuClusterConfigSpec)
    (renderedRaw : String) (um : String → JsonVal) (c : Cluster)
    (h : cs.poolName = "master" ∨ cs.poolName = "worker") :
    syncMachineConfigObjs cs renderedRaw um c
      = ⟨c, [], .error (.errorf (cs.poolName ++ " pools is not allowed"))⟩ := by
  simp [syncMachineConfigObjs, h]

/-- A spec naming the reserved pool `master`. -/
def csMaster : DpuClusterConfigSpec :=
  ⟨"master", some selX, "network.operator.openshift.io/dpu=", "tenant-kubeconfig"⟩

/-- Witness for C6 at the reserved name `master`. -/
theorem reserved_pool_name_rejected_before_api_witness :
    syncMachineConfigObjs csMaster "rendered-ign" (fun _ => .null) emptyCluster
      = ⟨emptyCluster, [], .error (.errorf "master pools is not allowed")⟩ :=
  reserved_pool_name_rejected_before_api csMaster "rendered-ign" (fun _ => .null)
    emptyCluster (Or.inl rfl)

/-- C7: when a syncer handle is already held, `startTenantSyncerIfNeeded`
is a no-op returning success with no secret read, construction or launch;
a held handle is never replaced, and any state change starts from a nil
handle — so at most one syncer handle ever exists per reconciler. -/
theorem syncer_started_at_most_once (env : SyncerEnv) (cfg : DpuClusterConfig) (st : RState) :
    (st.syncer.isSome → startTenantSyncerIfNeeded env cfg st = ⟨st, [], .ok ()⟩)
    ∧ (∀ h, st.syncer = some h →
        (startTenantSyncerIfNeeded env cfg st).state.syncer = some h)
    ∧ ((startTenantSyncerIfNeeded env cfg st).state.syncer ≠ st.syncer → st.syncer = none) := by
  refine ⟨fun hs => ?_, fun h hs => ?_, fun hne => ?_⟩
  · cases hsy : st.syncer with
    | none => rw [hsy] at hs; simp at hs
    | some h => simp [startTenantSyncerIfNeeded, hsy]
  · simp [startTenantSyncerIfNeeded, hs]
  · cases hsy : st.syncer with
    | none => rfl
    | some h => simp [startTenantSyncerIfNeeded, hsy] at hne

/-- Witness for C7: with a held handle 3, the call is a no-op even though
every external call in the environment would succeed. -/
theorem syncer_started_at_most_once_witness :
    startTenantSyncerIfNeeded benignSyncerEnv cfg0 ⟨some 3⟩ = ⟨⟨some 3⟩, [], .ok ()⟩ :=
  (syncer_started_at_most_once benignSyncerEnv cfg0 ⟨some 3⟩).1 rfl

/-- C10: the node-selector merge in `syncOvnkubeDaemonSet` panics when the
pool's NodeSelector pointer is nil — reachable because a non-NotFound
pool-get error is silently swallowed, leaving the zero-valued pool — and
panics on the first label assignment when the rendered DaemonSet's
node-selector map is nil while the pool's match labels are non-empty. -/
theorem nil_node_selector_merge_panics (env : DsEnv) (cfg : DpuClusterConfig) :
    (∀ e pods obj rest,
      env.mcpGet = .error e → e.isNotFound = false →
      env.tenant.newClient = none → env.tenant.podList = .ok pods →
      env.envImage ≠ "" → env.renderObjs = .ok (obj :: rest) →
      obj.kind = "DaemonSet" →
      syncOvnkubeDaemonSet env cfg
        = .goPanic "invalid memory address or nil pointer dereference")
    ∧ (∀ p sel kv ls pods obj rest,
      env.mcpGet = .ok p → p.spec.nodeSelector = some sel → sel.matchLabels = kv :: ls →
      env.tenant.newClient = none → env.tenant.podList = .ok pods →
      env.envImage ≠ "" → env.renderObjs = .ok (obj :: rest) →
      obj.kind = "DaemonSet" → obj.nodeSelector = none →
      syncOvnkubeDaemonSet env cfg = .goPanic "assignment to entry in nil map") := by
  constructor
  · intro e pods obj rest hmcp hnf hnc hpl himg hrender hkind
    simp [syncOvnkubeDaemonSet, hmcp, hnf, getTenantClusterMasterIPs, hnc, hpl, himg,
      hrender, syncDsObjs, hkind, mergeNodeSelector, zeroPool]
  · intro p sel kv ls pods obj rest hmcp hsel hml hnc hpl himg hrender hkind hds
    simp [syncOvnkubeDaemonSet, hmcp, getTenantClusterMasterIPs, hnc, hpl, himg,
      hrender, syncDsObjs, hkind, mergeNodeSelector, hsel, hml, hds]

/-- Daemonset-sync oracle where the pool get fails with a non-NotFound
error that the source swallows. -/
def dsEnvSwallowedGet : DsEnv :=
  { benignDsEnv with mcpGet := .error (.apiError false "etcdserver timeout") }

/-- Daemonset-sync oracle where the pool has a match label but the
rendered DaemonSet's node-selector map is nil. -/
def dsEnvNilMap : DsEnv :=
  { benignDsEnv with
      mcpGet := .ok ⟨"dpu", ⟨some dpuMcSelector, some ⟨[("role", "dpu")], []⟩⟩⟩,
      renderObjs := .ok [⟨"DaemonSet", "ovnkube-node", none⟩] }

/-- Witness for C10 at both panicking configurations. -/
theorem nil_node_selector_merge_panics_witness :
    syncOvnkubeDaemonSet dsEnvSwallowedGet cfg0
      = .goPanic "invalid memory address or nil pointer dereference"
    ∧ syncOvnkubeDaemonSet dsEnvNilMap cfg0 = .goPanic "assignment to entry in nil map" :=
  ⟨(nil_node_selector_merge_panics dsEnvSwallowedGet cfg0).1 (.apiError false "etcdserver timeout")
      [⟨"10.0.0.1"⟩, ⟨"10.0.0.2"⟩] ⟨"DaemonSet", "ovnkube-node", some []⟩ []
      rfl rfl rfl rfl (by decide) rfl rfl,
   (nil_node_selector_merge_panics dsEnvNilMap cfg0).2 ⟨"dpu", ⟨some dpuMcSelector, some ⟨[("role", "dpu")], []⟩⟩⟩
      ⟨[("role", "dpu")], []⟩ ("role", "dpu") [] [⟨"10.0.0.1"⟩, ⟨"10.0.0.2"⟩]
      ⟨"DaemonSet", "ovnkube-node", none⟩ [] rfl rfl rfl rfl rfl (by decide) rfl rfl rfl⟩

theorem putMcp_mcp_self (c : Cluster) (p : MachineConfigPool) :
    (c.putMcp p).mcp p.name = some p := by
  simp [Cluster.putMcp]

theorem putMcp_mc (c : Cluster) (p : MachineConfigPool) : (c.putMcp p).mc = c.mc := rfl

theorem putMc_mcp (c : Cluster) (m : MachineConfig) : (c.putMc m).mcp = c.mcp := rfl

theorem putMc_mc_self (c : Cluster) (m : MachineConfig) :
    (c.putMc m).mc m.name = some m := by
  simp [Cluster.putMc]

/-- Helper: when the stored pool matches the desired selectors and the
stored payload decodes equal to the rendered payload, the convergence run
performs only the two gets and changes nothing. -/
theorem sync_no_change_no_writes (cs : DpuClusterConfigSpec) (raw : String)
    (um : String → JsonVal) (c : Cluster) (p : MachineConfigPool) (m : MachineConfig)
    (hres : ¬(cs.poolName = "master" ∨ cs.poolName = "worker"))
    (hmcp : c.mcp cs.poolName = some p)
    (hs1 : p.spec.machineConfigSelector = some dpuMcSelector)
    (hs2 : p.spec.nodeSelector = cs.nodeSelector)
    (hmc : c.mc (mcName cs.poolName) = some m)
    (hum : um m.configRaw = um raw) :
    syncMachineConfigObjs cs raw um c
      = ⟨c, [.getMcp cs.poolName, .getMc (mcName cs.poolName)], .ok ()⟩ := by
  simp [syncMachineConfigObjs, if_neg hres, hmcp, hs1, hs2, hmc, hum]

/-- Helper: on semantic mismatch of the stored and rendered payloads (pool
already matching), the run updates the MachineConfig with the rendered
payload, carrying forward the stored resource version. -/
theorem sync_mc_mismatch_updates (cs : DpuClusterConfigSpec) (raw : String)
    (um : String → JsonVal) (c : Cluster) (p : MachineConfigPool) (m : MachineConfig)
    (hres : ¬(cs.poolName = "master" ∨ cs.poolName = "worker"))
    (hmcp : c.mcp cs.poolName = some p)
    (hs1 : p.spec.machineConfigSelector = some dpuMcSelector)
    (hs2 : p.spec.nodeSelector = cs.nodeSelector)
    (hmc : c.mc (mcName cs.poolName) = some m)
    (hum : um m.configRaw ≠ um raw) :
    syncMachineConfigObjs cs raw um c
      = ⟨c.putMc ⟨mcName cs.poolName, m.resourceVersion, raw⟩,
          [.getMcp cs.poolName, .getMc (mcName cs.poolName),
            .updateMc ⟨mcName cs.poolName, m.resourceVersion, raw⟩], .ok ()⟩ := by
  simp [syncMachineConfigObjs, if_neg hres, hmcp, hs1, hs2, hmc, hum]

/-- Helper: after one convergence run on a well-formed store (objects are
stored under their own names), the stored pool has the desired selectors
and the stored payload decodes equal to the rendered payload. -/
theorem sync_post_state (cs : DpuClusterConfigSpec) (raw : String) (um : String → JsonVal)
    (c : Cluster)
    (hres : ¬(cs.poolName = "master" ∨ cs.poolName = "worker"))
    (hwf : ∀ n q, c.mcp n = some q → q.name = n) :
    ∃ p m, (syncMachineConfigObjs cs raw um c).cluster.mcp cs.poolName = some p
      ∧ p.spec.machineConfigSelector = some dpuMcSelector
      ∧ p.spec.nodeSelector = cs.nodeSelector
      ∧ (syncMachineConfigObjs cs raw um c).cluster.mc (mcName cs.poolName) = some m
      ∧ um m.configRaw = um raw := by
  rcases hmcp : c.mcp cs.poolName with _ | found
  · rcases hmc : c.mc (mcName cs.poolName) with _ | m0
    · refine ⟨⟨cs.poolName, ⟨some dpuMcSelector, cs.nodeSelector⟩⟩,
        ⟨mcName cs.poolName, "", raw⟩, ?_, rfl, rfl, ?_, rfl⟩
      · simp [syncMachineConfigObjs, if_neg hres, hmcp, hmc, Cluster.putMcp, Cluster.putMc]
      · simp [syncMachineConfigObjs, if_neg hres, hmcp, hmc, Cluster.putMcp, Cluster.putMc]
    · by_cases hum : um m0.configRaw = um raw
      · refine ⟨⟨cs.poolName, ⟨some dpuMcSelector, cs.nodeSelector⟩⟩, m0, ?_, rfl, rfl, ?_, hum⟩
        · simp [syncMachineConfigObjs, if_neg hres, hmcp, hmc, hum, Cluster.putMcp]
        · simp [syncMachineConfigObjs, if_neg hres, hmcp, hmc, hum, Cluster.putMcp]
      · refine ⟨⟨cs.poolName, ⟨some dpuMcSelector, cs.nodeSelector⟩⟩,
          ⟨mcName cs.poolName, m0.resourceVersion, raw⟩, ?_, rfl, rfl, ?_, rfl⟩
        · simp [syncMachineConfigObjs, if_neg hres, hmcp, hmc, hum, Cluster.putMcp, Cluster.putMc]
        · simp [syncMachineConfigObjs, if_neg hres, hmcp, hmc, hum, Cluster.putMcp, Cluster.putMc]
  · have hname : found.name = cs.poolName := hwf _ _ hmcp
    by_cases hsel : found.spec.machineConfigSelector = some dpuMcSelector
        ∧ found.spec.nodeSelector = cs.nodeSelector
    · rcases hmc : c.mc (mcName cs.poolName) with _ | m0
      · refine ⟨found, ⟨mcName cs.poolName, "", raw⟩, ?_, hsel.1, hsel.2, ?_, rfl⟩
        · simp [syncMachineConfigObjs, if_neg hres, hmcp, hsel.1, hsel.2, hmc, Cluster.putMc]
        · simp [syncMachineConfigObjs, if_neg hres, hmcp, hsel.1, hsel.2, hmc, Cluster.putMc]
      · by_cases hum : um m0.configRaw = um raw
        · refine ⟨found, m0, ?_, hsel.1, hsel.2, ?_, hum⟩
          · simp [syncMachineConfigObjs, if_neg hres, hmcp, hsel.1, hsel.2, hmc, hum]
          · simp [syncMachineConfigObjs, if_neg hres, hmcp, hsel.1, hsel.2, hmc, hum]
        · refine ⟨found, ⟨mcName cs.poolName, m0.resourceVersion, raw⟩, ?_, hsel.1, hsel.2, ?_, rfl⟩
          · simp [syncMachineConfigObjs, if_neg hres, hmcp, hsel.1, hsel.2, hmc, hum, Cluster.putMc]
          · simp [syncMachineConfigObjs, if_neg hres, hmcp, hsel.1, hsel.2, hmc, hum, Cluster.putMc]
    · rcases hmc : c.mc (mcName cs.poolName) with _ | m0
      · refine ⟨{ found with spec := ⟨some dpuMcSelector, cs.nodeSelector⟩ },
          ⟨mcName cs.poolName, "", raw⟩, ?_, rfl, rfl, ?_, rfl⟩
        · simp [syncMachineConfigObjs, if_neg hres, hmcp, hsel, hmc, Cluster.putMcp,
            Cluster.putMc, hname]
        · simp [syncMachineConfigObjs, if_neg hres, hmcp, hsel, hmc, Cluster.putMcp,
            Cluster.putMc, hname]
      · by_cases hum : um m0.configRaw = um raw
        · refine ⟨{ found with spec := ⟨some dpuMcSelector, cs.nodeSelector⟩ }, m0,
            ?_, rfl, rfl, ?_, hum⟩
          · simp [syncMachineConfigObjs, if_neg hres, hmcp, hsel, hmc, hum, Cluster.putMcp, hname]
          · simp [syncMachineConfigObjs, if_neg hres, hmcp, hsel, hmc, hum, Cluster.putMcp, hname]
        · refine ⟨{ found with spec := ⟨some dpuMcSelector, cs.nodeSelector⟩ },
            ⟨mcName cs.poolName, m0.resourceVersion, raw⟩, ?_, rfl, rfl, ?_, rfl⟩
          · simp [syncMachineConfigObjs, if_neg hres, hmcp, hsel, hmc, hum, Cluster.putMcp,
              Cluster.putMc, hname]
          · simp [syncMachineConfigObjs, if_neg hres, hmcp, hsel, hmc, hum, Cluster.putMcp,
              Cluster.putMc, hname]

/-- C2: with the stored pool's selectors deeply equal to the desired ones
and the stored payload decoding structurally equal to the rendered one
(bytes may differ), the convergence run issues no create or update; an
update of the payload happens only on semantic mismatch and then carries
forward the stored resource version; and a second run directly after a
first one (on a well-formed store) issues no write at all. -/
theorem semantic_diff_update_idempotence :
    (∀ cs raw um c p m,
      ¬(cs.poolName = "master" ∨ cs.poolName = "worker") →
      c.mcp cs.poolName = some p →
      p.spec.machineConfigSelector = some dpuMcSelector →
      p.spec.nodeSelector = cs.nodeSelector →
      c.mc (mcName cs.poolName) = some m →
      um m.configRaw = um raw →
      (syncMachineConfigObjs cs raw um c).ops
          = [.getMcp cs.poolName, .getMc (mcName cs.poolName)]
        ∧ (syncMachineConfigObjs cs raw um c).res = .ok ())
    ∧ (∀ cs raw um c p m,
      ¬(cs.poolName = "master" ∨ cs.poolName = "worker") →
      c.mcp cs.poolName = some p →
      p.spec.machineConfigSelector = some dpuMcSelector →
      p.spec.nodeSelector = cs.nodeSelector →
      c.mc (mcName cs.poolName) = some m →
      um m.configRaw ≠ um raw →
      (syncMachineConfigObjs cs raw um c).ops
          = [.getMcp cs.poolName, .getMc (mcName cs.poolName),
              .updateMc ⟨mcName cs.poolName, m.resourceVersion, raw⟩])
    ∧ (∀ cs raw um c,
      ¬(cs.poolName = "master" ∨ cs.poolName = "worker") →
      (∀ n q, c.mcp n = some q → q.name = n) →
      ((syncMachineConfigObjs cs raw um
          (syncMachineConfigObjs cs raw um c).cluster).ops).filter McOp.isWrite = []) := by
  refine ⟨?_, ?_, ?_⟩
  · intro cs raw um c p m hres hmcp hs1 hs2 hmc hum
    rw [sync_no_change_no_writes cs raw um c p m hres hmcp hs1 hs2 hmc hum]
    exact ⟨rfl, rfl⟩
  · intro cs raw um c p m hres hmcp hs1 hs2 hmc hum
    rw [sync_mc_mismatch_updates cs raw um c p m hres hmcp hs1 hs2 hmc hum]
  · intro cs raw um c hres hwf
    obtain ⟨p, m, h1, h2, h3, h4, h5⟩ := sync_post_state cs raw um c hres hwf
    rw [sync_no_change_no_writes cs raw um _ p m hres h1 h2 h3 h4 h5]
    rfl

/-- A stored pool matching cfg0's desired state. -/
def p0 : MachineConfigPool := ⟨"dpu", ⟨some dpuMcSelector, some selX⟩⟩

/-- A stored machine config whose payload bytes differ from the rendered
ones but decode to the same tree. -/
def m0 : MachineConfig := ⟨mcName "dpu", "rv-42", "ign-stored-reordered"⟩

/-- A cluster already holding the matching pool and payload. -/
def cluster0 : Cluster := (emptyCluster.putMcp p0).putMc m0

/-- A decoder under which the stored (reordered) payload and the rendered
payload decode to the same tree, and everything else to null. -/
def um0 : String → JsonVal := fun s =>
  if s = "ign-stored-reordered" ∨ s = "rendered-ign" then
    .objCons "path" (.str "/etc/crio") (.objCons "contents" (.str "x") .objNil)
  else
    .null

/-- Witness for C2: on byte-different but tree-equal payloads no write is
issued, and the run directly after a fresh convergence issues no write. -/
theorem semantic_diff_update_idempotence_witness :
    ((syncMachineConfigObjs cfg0.spec "rendered-ign" um0 cluster0).ops
        = [.getMcp "dpu", .getMc (mcName "dpu")]
      ∧ (syncMachineConfigObjs cfg0.spec "rendered-ign" um0 cluster0).res = .ok ())
    ∧ ((syncMachineConfigObjs cfg0.spec "rendered-ign" um0
          (syncMachineConfigObjs cfg0.spec "rendered-ign" um0 emptyCluster).cluster).ops).filter
        McOp.isWrite = [] :=
  ⟨semantic_diff_update_idempotence.1 cfg0.spec "rendered-ign" um0 cluster0 p0 m0
      (by decide) (by decide) rfl rfl (by decide) (by decide),
    semantic_diff_update_idempotence.2.2 cfg0.spec "rendered-ign" um0 emptyCluster
      (by decide) (fun n q h => by simp [emptyCluster] at h)⟩

end DpuOperator
